import Mathlib

/-!
Verification of the data pipeline of the German grid-scale battery-storage
dashboard (src/app.py).  The pipeline is embedded shallowly: a pandas
DataFrame becomes a `List Row`, float columns become `Option ℚ` (NaN = `none`,
arithmetic exact), and each pipeline function of app.py is translated to a
Lean function of the same name.  Modelling conventions, justified against
pandas semantics:

* `Series.sum()` skips NaN, so it is `optSum` (sum of the `some` entries).
* A comparison with NaN is `False`, so a `none` field fails a `≥`/`≤` mask.
* `float division: x/0 = ±inf` for `x ≠ 0`, `0/0 = NaN`; app.py replaces
  `±inf` by `None` right after the division (line 689), so the composite
  column is `none` whenever the divisor is `0` and `some (c / p)` otherwise.
* Python dicts built by repeated assignment give the *last* write for a
  duplicated key, hence lookups run over the reversed association list.
* `sorted` on Python strings is lexicographic by code point, modelled by an
  insertion sort over `List Char` compared through `Char.val`.
* Dates are abstracted to their calendar year (`Option ℤ`): only
  `df['Jahr']` flows into the filters and the aggregator.
* The `'col' in df.columns` guards of app.py are modelled by taking the
  canonical schema to be present (the standard MaStR extract), with NaN
  cells represented by `none`.
-/

namespace BatteryPipeline

/-- Sum of a float column as pandas computes it: NaN entries are skipped. -/
def optSum (l : List (Option ℚ)) : ℚ := (l.filterMap id).sum

/-- Minimum of a float column as pandas computes it: NaN entries are skipped,
`none` iff every entry is NaN.  Used for `group_df['Jahr'].min()`. -/
def minYear (l : List (Option ℤ)) : Option ℤ := (l.filterMap id).min?

/-- Lexicographic strict order on code-point lists, Python's `<` on `str`. -/
def lexLt : List Char → List Char → Bool
  | [], [] => false
  | [], _ :: _ => true
  | _ :: _, [] => false
  | a :: as, b :: bs =>
    if a.val.toNat < b.val.toNat then true
    else if b.val.toNat < a.val.toNat then false
    else lexLt as bs

/-- Python's `<` on strings. -/
def strLt (a b : String) : Bool := lexLt a.toList b.toList

/-- Stable insertion into a sorted list: a new element goes after the
elements strictly smaller than it and before the rest. -/
def sIns (x : String) : List String → List String
  | [] => [x]
  | y :: ys => if strLt y x then y :: sIns x ys else x :: y :: ys

/-- Python's `sorted` for lists of strings (stable, code-point order). -/
def sortStrings : List String → List String
  | [] => []
  | x :: xs => sIns x (sortStrings xs)

/-- One canonical record: the row schema that app.py's pipeline builds
before handing the table to the dashboard (columns of lines 646-722). -/
structure Row where
  Anlagename : String
  MaStR_Nr : Option String
  Betreiber : Option String
  Betreiber_Original : Option String
  Netzbetreiber : Option String
  Netzbetreiber_Original : Option String
  Bundesland : Option String
  Leistung_MW : Option ℚ
  Kapazitaet_MWh : Option ℚ
  Dauer_Stunden : Option ℚ
  Jahr : Option ℤ
  Status : String
  Anlagename_Original_Parts : Option String
deriving DecidableEq

/-- The rule set of `OUTLIER_RULES` (app.py lines 21-36). -/
structure OutlierRules where
  min_power_mw : ℚ
  max_power_mw : ℚ
  min_duration_hours : ℚ
  max_duration_hours : ℚ
  min_capacity_mwh : ℚ
  min_year : ℤ
  max_year : ℤ
deriving DecidableEq

/-- The configured thresholds of app.py lines 21-36
(0.25 h = 1/4, 0.1 MWh = 1/10). -/
def OUTLIER_RULES : OutlierRules :=
  { min_power_mw := 1
    max_power_mw := 1000
    min_duration_hours := mkRat 1 4
    max_duration_hours := 10
    min_capacity_mwh := mkRat 1 10
    min_year := 2010
    max_year := 2035 }

/-- Mask of app.py line 49: `(Leistung_MW >= min) & (Leistung_MW <= max)`.
A NaN power compares `False` on both sides, so the row is dropped. -/
def keep_power (rules : OutlierRules) (r : Row) : Bool :=
  match r.Leistung_MW with
  | some p => decide (rules.min_power_mw ≤ p) && decide (p ≤ rules.max_power_mw)
  | none => false

/-- Mask of app.py line 57: `Kapazitaet_MWh >= min_capacity_mwh`. -/
def keep_capacity (rules : OutlierRules) (r : Row) : Bool :=
  match r.Kapazitaet_MWh with
  | some c => decide (rules.min_capacity_mwh ≤ c)
  | none => false

/-- Mask of app.py line 65: duration within `[min, max]`. -/
def keep_duration (rules : OutlierRules) (r : Row) : Bool :=
  match r.Dauer_Stunden with
  | some d => decide (rules.min_duration_hours ≤ d) && decide (d ≤ rules.max_duration_hours)
  | none => false

/-- Mask of app.py line 73: year within `[min, max]` *or* `Jahr.isna()`. -/
def keep_year (rules : OutlierRules) (r : Row) : Bool :=
  match r.Jahr with
  | some y => decide (rules.min_year ≤ y) && decide (y ≤ rules.max_year)
  | none => true

/-- `apply_outlier_filters` (app.py lines 39-87): the four masks are applied
sequentially, each to the survivors of the previous one. -/
def apply_outlier_filters (rules : OutlierRules) (df : List Row) : List Row :=
  ((((df.filter (keep_power rules)).filter (keep_capacity rules)).filter
      (keep_duration rules)).filter (keep_year rules))

/-- `OPERATOR_GROUPS` (app.py lines 96-406): parent company → registered
entity names. -/
def OPERATOR_GROUPS : List (String × List String) := [
  ("ECO STOR",
   ["ECO POWER FOUR GmbH",
    "ECO POWER SIX GmbH",
    "ECO POWER THREE GmbH",
    "ECO POWER ONE GmbH",
    "ECO POWER TWO GmbH"]),
  ("East Energy",
   ["East Energy PV Wiendorf GmbH & Co.KG",
    "East Energy PV Rostock GmbH & Co.KG",
    "East Energy PV Wentow GmbH & Co.KG",
    "East Energy PV Detershagen GmbH & Co. KG",
    "East Energy PV Klevenow GmbH & Co. KG",
    "East Energy PV Werle GmbH & Co. KG"]),
  ("RWE",
   ["RWE Generation SE",
    "RWE Supply & Trading GmbH",
    "RWE Battery Solutions GmbH",
    "RWE Wind Onshore & PV Deutschland GmbH",
    "RWE Neuland Erneuerbare Energien GmbH & Co. KG"]),
  ("Kyon Energy",
   ["Kyon-51 Battery Storage GmbH",
    "Kyon Storage 232 GmbH",
    "Kyon-42 Battery Storage GmbH",
    "Kyon-100 Battery Storage GmbH",
    "Kyon-41 Battery Storage GmbH",
    "Kyon-50 Battery Storage GmbH",
    "Kyon-29 Battery Storage GmbH"]),
  ("Anumar",
   ["Anumar Solarpark Inchenhofen GmbH & Co. KG",
    "Anumar Solarpark Martinsheim GmbH & Co. KG",
    "Anumar Solarpark Vohburg-Oberdolling GmbH & Co. KG",
    "Anumar Solarpark Schrobenhausen-Öd GmbH & Co. KG",
    "Anumar Solarpark Edelshausen II GmbH & Co. KG",
    "Anumar Solarpark Dielkirchen GmbH & Co. KG",
    "Anumar Solarpark Dettelbach GmbH & Co. KG",
    "Anumar Solarpark Altdorf II GmbH & Co. KG",
    "Anumar Solarpark Feuchtwangen GmbH & Co. KG",
    "Anumar Solarpark Seubersdorf GmbH & Co. KG",
    "Anumar Solarpark Weil III GmbH & Co. KG",
    "Anumar Solarpark Dasing GmbH & Co. KG",
    "Anumar Solarpark Barbing II GmbH & Co. KG",
    "Anumar Solarpark Großmehring II GmbH & Co. KG",
    "Anumar Solarpark Velburg VI GmbH & Co. KG",
    "Anumar Solarpark Prosselsheim GmbH & Co. KG",
    "Anumar Solarpark Colbitz II GmbH & Co. KG",
    "Anumar Solarpark Oberschleißheim GmbH & Co. KG",
    "Anumar Solarpark Hilgertshausen-Tandern GmbH & Co. KG",
    "Anumar Solarpark Sparneck GmbH & Co. KG",
    "Anumar Solarpark Seetz GmbH & Co. KG",
    "Anumar Solarpark Schweitenkirchen GmbH & Co. KG",
    "Anumar Solarpark Winterbach RLP GmbH & Co. KG",
    "Anumar Solarpark Wolnzach-Gebrontshausen GmbH & Co. KG",
    "Anumar Solarpark Mögglingen GmbH & Co. KG",
    "Anumar Solarpark Neustadt a. d. Donau GmbH & Co. KG",
    "Anumar Solarpark Siglohe GmbH & Co. KG",
    "Anumar Solarpark Wernberg-Köblitz GmbH & Co. KG",
    "Anumar Solarpark Kühbach V GmbH & Co. KG",
    "Anumar Solarpark Gachenbach-Peutenhausen GmbH & Co. KG",
    "Anumar Solarpark Beilngries-Kirchbuch GmbH & Co. KG",
    "Anumar Solarpark Karlskron-Pobenhausen GmbH & Co. KG",
    "Anumar Solarpark Wölfersheim GmbH & Co. KG",
    "Anumar Solarpark Rohrbach XI GmbH & Co. KG",
    "Anumar Solarpark Wolnzach VI GmbH & Co. KG",
    "Anumar Solarpark Mallersdorf-Pfaffenberg GmbH & Co. KG",
    "Anumar Solarpark Freystadt-Höfen GmbH & Co. KG",
    "Anumar Solarpark Ingolstadt VI GmbH & Co. KG",
    "Anumar Solarpark Petersberg GmbH & Co. KG",
    "Anumar Solarpark Menning GmbH & Co. KG",
    "Anumar Solarpark Wolnzach III GmbH & Co. KG",
    "Anumar Solarpark Bad Camberg GmbH & Co. KG",
    "Anumar Solarpark Jetzendorf GmbH & Co. KG",
    "Anumar Solarpark Burkau GmbH & Co. KG",
    "Anumar Solarpark Meeder IV GmbH & Co. KG",
    "Anumar Solarpark Kirchhaslach GmbH & Co. KG",
    "Anumar Solarpark Mosbach GmbH & Co. KG",
    "Anumar Solarpark Seckach III GmbH & Co. KG",
    "Anumar Solarpark Beilngries-Arnbuch GmbH & Co. KG",
    "Anumar Solarpark Parsberg V GmbH & Co. KG",
    "Anumar Solarpark Denkendorf GmbH & Co. KG",
    "Anumar Solarpark Laaber GmbH & Co. KG",
    "Anumar Solarpark Stamsried GmbH & Co. KG",
    "Anumar Solarpark Winterbach II GmbH & Co. KG",
    "Anumar Solarpark Weinheim GmbH & Co. KG",
    "Anumar Solarpark Schernfeld GmbH & Co. KG",
    "Anumar Solarpark Trugenhofen-Rohrbach-Rennertshofen GmbH & Co. KG",
    "Anumar Solarpark Schnelldorf GmbH & Co. KG",
    "Anumar Solarpark Beratzhausen GmbH & Co. KG",
    "Anumar Solarpark Werne GmbH & Co. KG",
    "Anumar Solarpark Großrinderfeld GmbH & Co. KG",
    "Anumar Solarpark Vierkirchen GmbH & Co. KG",
    "Anumar Solarpark Ingolstadt-Etting GmbH & Co. KG",
    "Anumar Solarpark Ingolstadt VII GmbH & Co. KG",
    "Anumar Solarpark Steinach II GmbH & Co. KG",
    "Anumar Solarpark Allershausen GmbH & Co. KG",
    "Anumar Solarpark Uettingen GmbH & Co. KG",
    "Anumar Solarpark Reichertshofen-Winden GmbH & Co. KG",
    "Anumar Solarpark Eching GmbH & Co. KG",
    "Anumar Solarpark Wolfratshausen GmbH & Co. KG",
    "Anumar Solarpark Seubersdorf PR GmbH & Co. KG",
    "Anumar Solarpark Altmannstein GmbH & Co. KG",
    "Anumar Solarpark Adelsheim GmbH & Co. KG"]),
  ("Ju:niz",
   ["SMAREG4 GmbH & Co. KG",
    "SMAREG 6 GmbH & Co. KG",
    "SMAREG8 GmbH & Co. KG",
    "SMAREG9 GmbH & Co. KG",
    "SMAREG12 GmbH & Co.KG",
    "SMAREG3 GmbH & Co. KG",
    "SMAREG5 GmbH & Co. KG",
    "SMAREG7 GmbH & Co. KG",
    "SMAREG 1",
    "SMAREG14 GmbH & Co.KG"]),
  ("Obton",
   ["Obton Alfeld GmbH & Co. KG",
    "Obton Storage GmbH & Co. KG",
    "Obton Karstädt GmbH & Co. KG",
    "Obton Tangermünde GmbH & Co. KG"]),
  ("EnBW",
   ["EnBW Energie Baden-Württemberg AG",
    "EnBW Solar GmbH",
    "EnBW Windkraftprojekte GmbH",
    "EnBW Solarpark Gottesgabe GmbH",
    "EnBW SunInvest GmbH & Co. KG"]),
  ("ENERPARC",
   ["ENERPARC Solar Invest 243 EU 1.7 GmbH",
    "ENERPARC Solar Invest 222 GmbH",
    "ENERPARC Solar Invest 211 TU 2 GmbH",
    "ENERPARC Solar Invest 182 GmbH",
    "ENERPARC Solar Invest 230 TU 32 GmbH & Co. KG",
    "ENERPARC Solar Invest 230 TU 28 GmbH & Co. KG",
    "ENERPARC Solar Invest 273 GmbH",
    "ENERPARC Solar Invest 230 TU 7 GmbH & Co. KG",
    "ENERPARC Solar Invest 230 TU 33 GmbH & Co. KG",
    "ENERPARC Solar Invest 230 TU 31 GmbH & Co. KG",
    "ENERPARC Solar Invest 274 GmbH",
    "ENERPARC Solar Invest 211 TU 3 GmbH",
    "ENERPARC Solar Invest 230 TU 38 GmbH & Co. KG",
    "ENERPARC Solar Invest 216 GmbH",
    "ENERPARC Solar Invest 230 TU 36 GmbH & Co. KG",
    "ENERPARC Solar Invest 230 TU 25 GmbH & Co. KG",
    "ENERPARC Solar Invest 243 EU 1.9 GmbH & Co. KG",
    "ENERPARC Solar Invest 230 TU 35 GmbH & Co. KG",
    "ENERPARC Solar Invest 230 TU 1 GmbH & Co. KG",
    "ENERPARC Solar Invest 192 GmbH",
    "ENERPARC Solar Invest 169 GmbH",
    "ENERPARC Solar Invest 202 GmbH",
    "ENERPARC Solar Invest 257 GmbH",
    "ENERPARC Solar Invest 230 TU 59 GmbH & Co. KG",
    "ENERPARC Solar Invest 230 TU 24 GmbH & Co. KG",
    "ENERPARC Solar Invest 272 GmbH",
    "ENERPARC Solar Invest 230 TU 37 GmbH & Co. KG",
    "ENERPARC Solar Invest 230 TU 26 GmbH & Co. KG",
    "ENERPARC Solar Invest 123 GmbH",
    "ENERPARC Solar Invest 253 GmbH"]),
  ("Iqony",
   ["Iqony Battery System",
    "Iqony 2. Battery System GmbH"]),
  ("trlyr",
   ["trlyr 8 GmbH & Co. KG",
    "trlyr 9 GmbH & Co. KG",
    "trlyr 4 GmbH & Co. KG",
    "trlyr 5 GmbH & Co. KG",
    "trlyr 3 GmbH & Co. KG",
    "trlyr2 GmbH",
    "trlyr1 GmbH"]),
  ("BESS",
   ["BESS Neumünster GmbH & Co. KG",
    "BESS Oberröblingen GmbH & Co. KG",
    "BESS Quedlinburg GmbH & Co. KG",
    "BESS Brietlingen",
    "BESS Hettstedt Fünfte Energie GmbH",
    "BESS Königsee GmbH",
    "BESS Kolitzheim 1 GmbH & Co. KG"]),
  ("TEP",
   ["TEP Juno GmbH & Co. KG",
    "TEP Melpomene GmbH & Co. KG",
    "TEP Thalia GmbH & Co. KG",
    "TEP Eunomia GmbH & Co. KG",
    "TEP Irene GmbH & Co. KG",
    "TEP Flora",
    "TEP Vesta Gmbh & Co. KG",
    "TEP Lipperhey GmbH & Co. KG",
    "TEP Fortuna GmbH & Co. KG",
    "TEP Lutetia GmbH & Co. KG"]),
  ("BES",
   ["BES Bennewitz GmbH & Co. KG",
    "BES Groitzsch GmbH& Co. KG",
    "BES Langenreichenbach GmbH & Co. KG",
    "BES Dresden Süd GmbH & Co. KG"]),
  ("Sunnic Lighthouse",
   ["Sunnic Lighthouse Solar Invest 11 TU 2 GmbH",
    "Sunnic Lighthouse Solar Invest 17 GmbH",
    "Sunnic Lighthouse Solar Invest 20 GmbH",
    "Sunnic Lighthouse Solar Invest 18 TU 11 GmbH & Co. KG",
    "Sunnic Lighthouse Solar Invest 18 TU 6 GmbH & Co. KG",
    "Sunnic Lighthouse Solar Invest 18 TU 4 GmbH & Co. KG",
    "Sunnic Lighthouse Solar Invest 18 TU 13 GmbH & Co. KG",
    "Sunnic Lighthouse Solar Invest 18 TU 3 GmbH & Co. KG"]),
  ("Bürgerwindpark",
   ["Bürgerwindpark Reußenköge GmbH & Co. KG",
    "Fünfundzwanzigste Bürgerwindpark GmbH & Co. KG",
    "Dreißigste Bürgerwindpark GmbH & Co. KG"]),
  ("UGE",
   ["UGE Lübbenau GmbH & Co. KG Umweltgereche Energie",
    "UGE Laubst GmbH & Co. KG Umweltgereche Energie",
    "UGE Neuwiese GmbH & Co. KG Umweltgereche Energie"]),
  ("MJ Solarbetriebsgesellschaft",
   ["MJ 6. Solarbetriebsgesellschaft",
    "MJ 13. Solarbetriebsgesellschaft",
    "MJ 12. Solarbetriebsgesellschaft"]),
  ("Vattenfall",
   ["Vattenfall Solar Neubrandenburg GmbH & Co. KG",
    "Vattenfall Solar InnoA GmbH"]),
  ("ABO Energy",
   ["ABO Energy Solarpark 8 GmbH & Co. KG",
    "ABO Wind Solarpark 2 GmbH & Co. KG",
    "ABO Wind Solarpark 11 GmbH & Co. KG",
    "ABO Energy Solarpark 11 GmbH & Co. KG",
    "ABO Energy Solarpark 3 GmbH & Co. KG",
    "ABO Energy Solarpark 7 GmbH & Co. KG",
    "ABO Wind Biogas Barby GmbH & Co. KG"]),
  ("ESG",
   ["ESG Kraftwerke I GmbH",
    "ESG Speicherwerke I GmbH & Co. KG"]),
  ("Volkswagen",
   ["Volkswagen Group Charging",
    "VW Kraftwerk GmbH"]),
  ("Energiegesellschaft Balder",
   ["Energiegesellschaft Balder MV III mbH & Co. KG",
    "Energiegesellschaft Balder MV II GmbH & Co. KG"]),
  ("Sonnenwerk",
   ["Sonnenwerk Issigau Reitzenstein GmbH & Co. KG",
    "Sonnenwerk Kirchenlamitz GmbH & Co. KG",
    "Sonnenwerk Zell im Fichtelgebirge GmbH & Co. KG"]),
  ("LHI",
   ["LHI SolarWind PV Gammertingen 2695 GmbH & Co. KG",
    "LHI SolarWind PV Letschin 2683 GmbH & Co. KG",
    "LHI EE Invest PV Lübars 2699 GmbH & Co. KG",
    "LHI GII3 PV Badem Gindorf 2697 GmbH & Co.KG"]),
  ("Sonnenkraft",
   ["Sonnenkraft Marnitz 3 GmbH",
    "Sonnenkraft Emkendorf GmbH & Co. KG"]),
  ("VPS BATTERY PARK",
   ["VPS BATTERY PARK 1 GmbH & Co. KG",
    "VPS BATTERY PARK 2 GmbH & Co. KG"]),
  ("RP Deutschland",
   ["RP Deutschland 1 UG",
    "RP Deutschland 11 UG"]),
  ("ECO BATTERY PARK",
   ["ECO BATTERY PARK 4 GmbH & Co. KG",
    "ECO BATTERY PARK 3 GmbH & Co. KG",
    "ECO BATTERY PARK 5 GmbH & Co. KG"]),
  ("Mando Multiwerke",
   ["Mando Multiwerke Nr. 6 GmbH & Co. KG",
    "Mando Multiwerke Nr.8 GmbH & Co.KG",
    "Mando Multiwerke Nr. 1 GmbH & Co. KG"]),
  ("EnValue",
   ["EnValue MSE SP Großmehring I GmbH & Co. KG",
    "EnValue Solarpark 29 GmbH & Co. KG",
    "EnValue Solarpark 43 GmbH & Co. KG",
    "EnValue Solarpark 36 GmbH & Co. KG",
    "EnValue Solarpark 35 GmbH & Co. KG"]),
  ("GPJ Energiepark",
   ["GPJ Energiepark Zeller-Land 3 GmbH & Co. KG",
    "GPJ Energiepark Zeller-Land 2 GmbH & Co. KG"]),
  ("PEE",
   ["PEE2 GmbH & Co. KG",
    "PEE3 GmbH & Co. KG",
    "PEE4 GmbH & Co. KG"]),
  ("Lintas Energiepark",
   ["27. Lintas Energiepark GmbH & Co. KG",
    "29. Lintas Energiepark GmbH & Co. KG"]),
  ("Eneco",
   ["EnspireME"])
]

/-- `NETZBETREIBER_GROUPS` (app.py lines 420-440). -/
def NETZBETREIBER_GROUPS : List (String × List String) := [
  ("50Hertz",
   ["50Hertz Transmission GmbH"]),
  ("Amprion",
   ["Amprion GmbH"]),
  ("TenneT",
   ["TenneT TSO GmbH"]),
  ("TransnetBW",
   ["TransnetBW GmbH"]),
  ("Westnetz",
   ["Westnetz GmbH"]),
  ("E.DIS Netz",
   ["E.DIS Netz GmbH"]),
  ("Bayernwerk Netz",
   ["Bayernwerk Netz GmbH",
    "Bayernwerk Netz GmbH; Elektrizitätswerk Goldbach-Hösbach GmbH & Co. KG"]),
  ("Avacon Netz",
   ["Avacon Netz GmbH"]),
  ("Mitteldeutsche Netzgesellschaft",
   ["Mitteldeutsche Netzgesellschaft Strom mbH"]),
  ("LEW Verteilnetz",
   ["LEW Verteilnetz GmbH"]),
  ("Schleswig-Holstein Netz",
   ["Schleswig-Holstein Netz GmbH"]),
  ("TEN Thüringer Energienetze",
   ["TEN Thüringer Energienetze GmbH & Co. KG"]),
  ("WEMAG Netz",
   ["WEMAG Netz GmbH"]),
  ("N-ERGIE Netz",
   ["N-ERGIE Netz GmbH"]),
  ("EWE NETZ",
   ["EWE NETZ GmbH"]),
  ("Netze BW",
   ["Netze BW GmbH"])
]

/-- `PROJECT_GROUPS` (app.py lines 518-565): consolidated project name →
original part names. -/
def PROJECT_GROUPS : List (String × List String) := [
  ("Speicher Beilrode I",
   ["Speicher Beilrode I - Teilanlage 1",
    "Speicher Beilrode I - Teilanlage 5",
    "Speicher Beilrode I - Teilanlage 6"]),
  ("Speicher Beilrode II",
   ["Speicher Beilrode II - Teilanlage 1",
    "Speicher Beilrode II - Teilanlage 2 (Inn24-1-047)"]),
  ("Speicher Jerchel West",
   ["Speicher Jerchel West - Teilanlage 2",
    "Speicher Jerchel West - Teilanlage 3"]),
  ("Speicher Martinsheim",
   ["Speicher Martinsheim - P23-148 - Teil 1",
    "Speicher Martinsheim - P23-148 - Teil 2"]),
  ("Speicher Schrobenhausen IX",
   ["Speicher Schrobenhausen IX - P22-591 - Teil 1",
    "Speicher Schrobenhausen IX - P22-591 - Teil 2"]),
  ("Speicher Schrobenhausen-Sandizell I",
   ["Speicher Schrobenhausen-Sandizell I - P20-105 - Teil 1",
    "Speicher Schrobenhausen-Sandizell I - P20-105 - Teil 2"]),
  ("Speicher Prosselsheim",
   ["Speicher Prosselsheim - P23-089 - Teil 1",
    "Speicher Prosselsheim - P23-089 - Teil 2"]),
  ("Speicher Colbitz II",
   ["Speicher Colbitz II - P23-206 - Teil 1",
    "Speicher Colbitz II - P23-206 - Teil 2"]),
  ("Speicher Mallersdorf-Pfaffenberg II",
   ["Speicher Mallersdorf-Pfaffenberg II - P23-120 - Teil 1",
    "Speicher Mallersdorf-Pfaffenberg II - P23-120 - Teil 2"]),
  ("Speicher GG III",
   ["GG III 8.111,04 kWp (Teil I) Speicher",
    "Speicher GG III (Teil 2)"]),
  ("Speicher Polt III",
   ["Speicher Polt III 4.600 kW(Teil 1)",
    "Speicher Polt III  (Teil 2)"])
]

/-- Flattening of a groups table into (entity, parent) pairs in Python's
iteration order, as the `for parent ... for entity ...` loops build the
reverse-lookup dicts. -/
def flattenGroups : List (String × List String) → List (String × String)
  | [] => []
  | (p, es) :: gs => es.map (fun e => (e, p)) ++ flattenGroups gs

/-- Dict lookup with default, `d.get(x, x)`.  Repeated assignments to the
same key leave the last write, hence the lookup over the reversed list. -/
def dictGetSelf (l : List (String × String)) (x : String) : String :=
  ((l.reverse).lookup x).getD x

/-- The `_OPERATOR_LOOKUP` reverse table (app.py lines 409-412). -/
def OPERATOR_FLAT : List (String × String) := flattenGroups OPERATOR_GROUPS

/-- `_OPERATOR_LOOKUP.get(x, x)`, the owner alias resolver of
`consolidate_operator_names` (app.py line 497). -/
def resolve_operator (x : String) : String := dictGetSelf OPERATOR_FLAT x

/-- `consolidate_operator_names` (app.py lines 484-509): copy the raw owner
into `Betreiber_Original`, overwrite `Betreiber` with the resolved parent.
A NaN owner stays NaN (`dict.get(nan, nan)`), hence `Option.map`. -/
def consolidate_operator_names (df : List Row) : List Row :=
  df.map (fun r =>
    { r with
      Betreiber_Original := r.Betreiber
      Betreiber := r.Betreiber.map resolve_operator })

/-- The `nb_lookup` reverse table of `consolidate_netzbetreiber_names`
(app.py lines 468-471). -/
def NB_FLAT : List (String × String) := flattenGroups NETZBETREIBER_GROUPS

/-- `nb_lookup.get(x, x)`, the grid-operator alias resolver
(app.py line 474). -/
def nb_resolve (x : String) : String := dictGetSelf NB_FLAT x

/-- Python's `\s` / `str.strip` whitespace on the code points that occur in
this data (ASCII whitespace; exotic Unicode whitespace is out of scope). -/
def pyIsSpace (c : Char) : Bool :=
  c == ' ' || c == '\t' || c == '\n' || c == '\r' || c == Char.ofNat 11 || c == Char.ofNat 12

/-- ASCII decimal digit, Python's `\d` on this data. -/
def isAsciiDigit (c : Char) : Bool :=
  decide (48 ≤ c.val.toNat) && decide (c.val.toNat ≤ 57)

/-- Does a tail of the string match the whole pattern
`\s*\(SNB\d+\)\s*$`?  The pattern is deterministic: greedy `\s*` before a
literal `(`, greedy `\d+` before a literal `)`, then whitespace to the end. -/
def matchSNBTail (l : List Char) : Bool :=
  let l1 := l.dropWhile pyIsSpace
  if ("(SNB".toList).isPrefixOf l1 then
    let l2 := l1.drop 4
    let ds := l2.takeWhile isAsciiDigit
    let l3 := l2.dropWhile isAsciiDigit
    !ds.isEmpty &&
      (match l3 with
       | ')' :: l4 => (l4.dropWhile pyIsSpace).isEmpty
       | _ => false)
  else false

/-- `re.sub(r'\s*\(SNB\d+\)\s*$', '', s)`: delete the leftmost (hence
longest, as the pattern is end-anchored) matching tail, keep the rest. -/
def snbStripL : List Char → List Char
  | [] => []
  | c :: cs => if matchSNBTail (c :: cs) then [] else c :: snbStripL cs

/-- Python's `str.strip()`: drop whitespace from both ends. -/
def pyStripL (l : List Char) : List Char :=
  ((l.dropWhile pyIsSpace).reverse.dropWhile pyIsSpace).reverse

/-- `clean_netzbetreiber_name` (app.py lines 443-452): `pd.isna(name)` is
passed through, otherwise the `(SNB<digits>)` suffix is removed and the
result is stripped. -/
def clean_netzbetreiber_name (o : Option String) : Option String :=
  o.map (fun s => String.mk (pyStripL (snbStripL s.toList)))

/-- Stage (b) of the grid-operator consolidation: `nb_lookup.get(x, x)` over
the cleaned column; NaN stays NaN. -/
def nb_resolve_opt (o : Option String) : Option String := o.map nb_resolve

/-- `consolidate_netzbetreiber_names` (app.py lines 455-481): preserve the
original, clean the MaStR ID suffix, then resolve through `nb_lookup`. -/
def consolidate_netzbetreiber_names (df : List Row) : List Row :=
  df.map (fun r =>
    { r with
      Netzbetreiber_Original := r.Netzbetreiber
      Netzbetreiber := nb_resolve_opt (clean_netzbetreiber_name r.Netzbetreiber) })

/-- The `_PROJECT_LOOKUP` reverse table (app.py lines 568-571). -/
def PROJECT_FLAT : List (String × String) := flattenGroups PROJECT_GROUPS

/-- Membership in `projects_to_consolidate = set(_PROJECT_LOOKUP.keys())`
(app.py lines 584-585). -/
def isPart (x : String) : Bool := ((PROJECT_FLAT.reverse).lookup x).isSome

/-- `_PROJECT_LOOKUP[x]` for part names, the identity otherwise
(the `map` of app.py line 598 only ever sees part names). -/
def cnameOf (x : String) : String := dictGetSelf PROJECT_FLAT x

/-- The to-merge slice `df[mask_to_consolidate]` (app.py line 591). -/
def matchedRows (rows : List Row) : List Row :=
  rows.filter (fun r => isPart r.Anlagename)

/-- The `Consolidated_Name` cell of a matched row (app.py line 598). -/
def rowKey (r : Row) : String := cnameOf r.Anlagename

/-- One group of `df_to_consolidate.groupby('Consolidated_Name')`: the
matched rows with the given target name, in their original order. -/
def groupOf (rows : List Row) (k : String) : List Row :=
  (matchedRows rows).filter (fun r => rowKey r == k)

/-- The group keys of the `groupby` (pandas sorts them ascending):
the distinct consolidated names that have a part present. -/
def groupKeys (rows : List Row) : List String :=
  sortStrings (((matchedRows rows).map rowKey).dedup)

/-- `new_duration = total_mwh / total_mw if total_mw > 0 else None`
(app.py line 605). -/
def merged_duration (total_mwh total_mw : ℚ) : Option ℚ :=
  if 0 < total_mw then some (total_mwh / total_mw) else none

/-- One synthesized row (app.py lines 601-622): the first row of the group
is the template; power and capacity are the pandas sums, the duration is
recomputed, the year is the group minimum, and the provenance column is the
`'; '`-join of the sorted original part names. -/
def mergeGroup (k : String) (g : List Row) (tmpl : Row) : Row :=
  { tmpl with
    Anlagename := k
    Leistung_MW := some (optSum (g.map (fun r => r.Leistung_MW)))
    Kapazitaet_MWh := some (optSum (g.map (fun r => r.Kapazitaet_MWh)))
    Dauer_Stunden :=
      merged_duration (optSum (g.map (fun r => r.Kapazitaet_MWh)))
        (optSum (g.map (fun r => r.Leistung_MW)))
    Jahr := minYear (g.map (fun r => r.Jahr))
    Anlagename_Original_Parts :=
      some (String.intercalate "; " (sortStrings (g.map (fun r => r.Anlagename)))) }

/-- A placeholder template for the impossible empty group (`groupby` never
produces one); `headD` needs it. -/
def emptyTemplate : Row :=
  { Anlagename := ""
    MaStR_Nr := none
    Betreiber := none
    Betreiber_Original := none
    Netzbetreiber := none
    Netzbetreiber_Original := none
    Bundesland := none
    Leistung_MW := none
    Kapazitaet_MWh := none
    Dauer_Stunden := none
    Jahr := none
    Status := ""
    Anlagename_Original_Parts := none }

/-- The list `consolidated_rows` (app.py lines 600-622), one synthesized
row per group key. -/
def consolidatedRows (rows : List Row) : List Row :=
  (groupKeys rows).map (fun k =>
    mergeGroup k (groupOf rows k) ((groupOf rows k).headD emptyTemplate))

/-- `df_keep` with its provenance column (app.py lines 592-595): pass-through
rows are tagged with their own name. -/
def passThroughRows (rows : List Row) : List Row :=
  (rows.filter (fun r => !(isPart r.Anlagename))).map
    (fun r => { r with Anlagename_Original_Parts := some r.Anlagename })

/-- `consolidate_multi_part_projects` (app.py lines 574-635): if no name
matches any part list the table is returned unchanged (and no provenance
column is created); otherwise the pass-through rows and the synthesized
rows are concatenated (`pd.concat([df_keep, df_consolidated])`). -/
def consolidate_multi_part_projects (rows : List Row) : List Row :=
  if rows.any (fun r => isPart r.Anlagename) then
    passThroughRows rows ++ consolidatedRows rows
  else rows

/-- Lowercasing of `str(x).lower()`; the indicators searched for are ASCII,
for which `Char.toLower` agrees with Python. -/
def lowerL (s : String) : List Char := s.toList.map Char.toLower

/-- Does `needle` occur as a contiguous substring of `hay`
(Python's `in` on strings)? -/
def containsSub (hay needle : List Char) : Bool :=
  match hay with
  | [] => needle.isEmpty
  | _ :: t => needle.isPrefixOf hay || containsSub t needle

/-- The status classifier of app.py lines 706-708: `'In Betrieb'` when the
lowered text contains `'betrieb'` but not `'planung'`, else `'In Planung'`
when it contains `'planung'`, else the raw text unchanged. -/
def standardize_status (t : String) : String :=
  if containsSub (lowerL t) ("betrieb".toList) && !(containsSub (lowerL t) ("planung".toList))
  then "In Betrieb"
  else if containsSub (lowerL t) ("planung".toList) then "In Planung"
  else t

/-- One raw record after column renaming, with `pd.to_numeric(·, 'coerce')`
results as `Option ℚ` (kW / kWh units still), parsed commissioning dates
abstracted to their calendar year, and the free-text status. -/
structure RawRow where
  Anlagename : String
  MaStR_Nr : Option String
  Betreiber : Option String
  Netzbetreiber : Option String
  Bundesland : Option String
  Nettonennleistung_kW : Option ℚ
  Speicherkapazitaet_kWh : Option ℚ
  Betriebsstatus : Option String
  Inbetriebnahmedatum : Option ℤ
  Geplantes_Inbetriebnahmedatum : Option ℤ
deriving DecidableEq

/-- The duration column (app.py lines 687-689):
`Kapazitaet_MWh / Leistung_MW` with `±inf` replaced by `None` immediately
after.  A NaN operand gives NaN; a zero power gives `±inf` (or `0/0 = NaN`),
all of which end up `none`. -/
def duration_col (cap pw : Option ℚ) : Option ℚ :=
  match cap, pw with
  | some c, some p => if p = 0 then none else some (c / p)
  | _, _ => none

/-- The normalization part of `load_and_process_data` (app.py lines
679-708): kW→MW and kWh→MWh by /1000, the duration column, the unified
date (`actual` filled with `planned`), its year, and the status label.
`str(nan) = 'nan'` contains neither indicator, so a NaN status passes
through as the literal text `"nan"`. -/
def normalize_row (r : RawRow) : Row :=
  let pw := r.Nettonennleistung_kW.map (fun v => v / 1000)
  let cap := r.Speicherkapazitaet_kWh.map (fun v => v / 1000)
  { Anlagename := r.Anlagename
    MaStR_Nr := r.MaStR_Nr
    Betreiber := r.Betreiber
    Betreiber_Original := none
    Netzbetreiber := r.Netzbetreiber
    Netzbetreiber_Original := none
    Bundesland := r.Bundesland
    Leistung_MW := pw
    Kapazitaet_MWh := cap
    Dauer_Stunden := duration_col cap pw
    Jahr := (r.Inbetriebnahmedatum).orElse (fun _ => r.Geplantes_Inbetriebnahmedatum)
    Status := standardize_status ((r.Betriebsstatus).getD "nan")
    Anlagename_Original_Parts := none }

/-- Normalization of the whole table; no row is ever dropped here
(unparsable values became `none` cells, not missing rows). -/
def normalize_all (raws : List RawRow) : List Row := raws.map normalize_row

/-- `load_and_process_data` (app.py lines 642-722): normalize, filter
outliers, consolidate owners, grid operators, and multi-part projects. -/
def load_and_process_data (raws : List RawRow) : List Row :=
  consolidate_multi_part_projects
    (consolidate_netzbetreiber_names
      (consolidate_operator_names
        (apply_outlier_filters OUTLIER_RULES (normalize_all raws))))

/-- `get_data` (app.py lines 725-749).  The file search is abstracted to
`Option (List RawRow)`: `none` when no readable CSV exists.  The `Bool`
component records whether the explicit "No valid CSV found." diagnostic is
emitted; it is, exactly when no CSV with at least one data row is found
(`len(test_df) > 0` gate), and then the empty table is returned. -/
def get_data (fs : Option (List RawRow)) : List Row × Bool :=
  match fs with
  | none => ([], true)
  | some raws =>
    if 0 < raws.length then (load_and_process_data raws, false) else ([], true)

/-! Helper lemmas about the embedded operations. -/

lemma sIns_perm (x : String) : ∀ l, List.Perm (sIns x l) (x :: l)
  | [] => List.Perm.refl _
  | y :: ys => by
    unfold sIns
    split
    · exact (List.Perm.cons y (sIns_perm x ys)).trans (List.Perm.swap x y ys)
    · exact List.Perm.refl _

lemma sortStrings_perm : ∀ l, List.Perm (sortStrings l) l
  | [] => List.Perm.refl _
  | x :: xs => (sIns_perm x (sortStrings xs)).trans (List.Perm.cons x (sortStrings_perm xs))

lemma mem_sortStrings {x : String} {l : List String} : x ∈ sortStrings l ↔ x ∈ l :=
  (sortStrings_perm l).mem_iff

lemma length_sortStrings (l : List String) : (sortStrings l).length = l.length :=
  (sortStrings_perm l).length_eq

lemma nodup_sortStrings {l : List String} (h : l.Nodup) : (sortStrings l).Nodup :=
  ((sortStrings_perm l).symm.nodup_iff).mp h

lemma optSum_nil : optSum [] = 0 := rfl

lemma optSum_getD (l : List (Option ℚ)) :
    optSum l = (l.map (fun o => o.getD 0)).sum := by
  induction l with
  | nil => rfl
  | cons o l ih =>
    cases o with
    | none => simpa [optSum, List.filterMap_cons] using ih
    | some q => simpa [optSum, List.filterMap_cons] using congrArg (q + ·) ih

lemma optSum_map_some {α : Type} (l : List α) (f : α → ℚ) :
    optSum (l.map (fun a => some (f a))) = (l.map f).sum := by
  induction l with
  | nil => rfl
  | cons a l ih => simpa [optSum, List.filterMap_cons] using congrArg (f a + ·) ih

lemma sum_filter_split {α : Type} (p : α → Bool) (w : α → ℚ) (l : List α) :
    ((l.filter p).map w).sum + ((l.filter (fun a => !(p a))).map w).sum
      = (l.map w).sum := by
  induction l with
  | nil => simp
  | cons a l ih =>
    cases hp : p a <;> simp [List.filter_cons, hp] <;> rw [← ih] <;> ring

lemma sum_partition {α : Type} (key : α → String) (w : α → ℚ) :
    ∀ (ks : List String) (xs : List α), ks.Nodup → (∀ x ∈ xs, key x ∈ ks) →
      (ks.map (fun k => ((xs.filter (fun x => key x == k)).map w).sum)).sum
        = (xs.map w).sum
  | [], xs, _, hc => by
    have hxs : xs = [] := by
      cases xs with
      | nil => rfl
      | cons a l => exact absurd (hc a (by simp)) (by simp)
    simp [hxs]
  | k :: ks, xs, hnd, hc => by
    have hk : k ∉ ks := (List.nodup_cons.mp hnd).1
    have hnd2 : ks.Nodup := (List.nodup_cons.mp hnd).2
    have hsub : ∀ x ∈ xs.filter (fun a => !(key a == k)), key x ∈ ks := by
      intro x hx
      rcases List.mem_filter.mp hx with ⟨hx1, hx2⟩
      rcases List.mem_cons.mp (hc x hx1) with hh | hh
      · exact absurd hh (by simpa using hx2)
      · exact hh
    have hrest : ∀ j ∈ ks,
        xs.filter (fun x => key x == j)
          = (xs.filter (fun a => !(key a == k))).filter (fun x => key x == j) := by
      intro j hj
      rw [List.filter_filter]
      apply List.filter_congr
      intro x _
      cases hxj : (key x == j) with
      | false => simp
      | true =>
        have : ¬ (key x == k) = true := by
          intro hcon
          exact hk (by rwa [← eq_of_beq hxj, eq_of_beq hcon] at hj)
        simp [hxj, Bool.eq_false_iff.mpr this]
    have hmap : ks.map (fun j => ((xs.filter (fun x => key x == j)).map w).sum)
        = ks.map (fun j =>
            (((xs.filter (fun a => !(key a == k))).filter (fun x => key x == j)).map w).sum) := by
      apply List.map_congr_left
      intro j hj
      rw [hrest j hj]
    calc (((k :: ks)).map (fun j => ((xs.filter (fun x => key x == j)).map w).sum)).sum
        = ((xs.filter (fun x => key x == k)).map w).sum
            + (ks.map (fun j => ((xs.filter (fun x => key x == j)).map w).sum)).sum := by
          simp
      _ = ((xs.filter (fun x => key x == k)).map w).sum
            + ((xs.filter (fun a => !(key a == k))).map w).sum := by
          rw [hmap, sum_partition key w ks (xs.filter (fun a => !(key a == k))) hnd2 hsub]
      _ = (xs.map w).sum := sum_filter_split (fun x => key x == k) w xs

lemma lookup_mem_snd :
    ∀ {l : List (String × String)} {x p : String},
      l.lookup x = some p → p ∈ l.map Prod.snd := by
  intro l
  induction l with
  | nil => intro x p h; simp [List.lookup] at h
  | cons a l ih =>
    intro x p h
    rcases a with ⟨k, v⟩
    rw [List.lookup] at h
    cases hkx : (x == k) with
    | true =>
      rw [hkx] at h
      have hv : v = p := by simpa using h
      rw [List.map_cons]
      exact hv ▸ List.mem_cons_self _ _
    | false =>
      rw [hkx] at h
      rw [List.map_cons]
      exact List.mem_cons_of_mem _ (ih h)

lemma flattenGroups_snd_mem :
    ∀ {gs : List (String × List String)} {p : String},
      p ∈ (flattenGroups gs).map Prod.snd → p ∈ gs.map Prod.fst := by
  intro gs
  induction gs with
  | nil => intro p h; simp [flattenGroups] at h
  | cons g gs ih =>
    intro p h
    rcases g with ⟨par, es⟩
    rw [flattenGroups, List.map_append] at h
    rcases List.mem_append.mp h with h1 | h1
    · rcases List.mem_map.mp h1 with ⟨q, hq, rfl⟩
      rcases List.mem_map.mp hq with ⟨e, _, rfl⟩
      simp
    · simp [ih h1]

lemma dictGetSelf_idem (l : List (String × String)) (parents : List String)
    (hsub : ∀ q ∈ l.map Prod.snd, q ∈ parents)
    (hgood : parents.all (fun p => ((l.reverse).lookup p).isNone) = true) :
    ∀ x, dictGetSelf l (dictGetSelf l x) = dictGetSelf l x := by
  intro x
  unfold dictGetSelf
  cases h : (l.reverse).lookup x with
  | none => simp [h]
  | some p =>
    have hp : p ∈ (l.reverse).map Prod.snd := lookup_mem_snd h
    have hp2 : p ∈ l.map Prod.snd := by
      rw [List.map_reverse, List.mem_reverse] at hp
      exact hp
    have hgp := List.all_eq_true.mp hgood p (hsub p hp2)
    cases hl : (l.reverse).lookup p with
    | none => simp [h, hl]
    | some q => rw [hl] at hgp; simp at hgp

set_option maxHeartbeats 4000000 in
lemma operator_parents_unresolved :
    (OPERATOR_GROUPS.map Prod.fst).all
      (fun p => ((OPERATOR_FLAT.reverse).lookup p).isNone) = true := by decide

set_option maxHeartbeats 1000000 in
lemma nb_parents_unresolved :
    (NETZBETREIBER_GROUPS.map Prod.fst).all
      (fun p => ((NB_FLAT.reverse).lookup p).isNone) = true := by decide

/-! The claims. -/

/-- C4: both alias resolvers are idempotent — `resolve(resolve(x)) ==
resolve(x)` for the owner resolver (`_OPERATOR_LOOKUP.get(x, x)`) and the
grid-operator resolver (`nb_lookup.get(x, x)`): no parent label produced by
either lookup table is itself an alias mapping to a different parent. -/
theorem c4_resolver_idempotent (x : String) :
    resolve_operator (resolve_operator x) = resolve_operator x ∧
      nb_resolve (nb_resolve x) = nb_resolve x := by
  constructor
  · exact dictGetSelf_idem OPERATOR_FLAT (OPERATOR_GROUPS.map Prod.fst)
      (fun q hq => flattenGroups_snd_mem hq) operator_parents_unresolved x
  · exact dictGetSelf_idem NB_FLAT (NETZBETREIBER_GROUPS.map Prod.fst)
      (fun q hq => flattenGroups_snd_mem hq) nb_parents_unresolved x

/-- C5: `duration_hours = capacity_MWh / power_MW` and is never infinite:
10 MW with 40 MWh gives 4.0 h; a zero power gives `null` (the `±inf`
replacement of line 689), and the merged-group recomputation (line 605)
likewise gives `null` when the summed power is 0. -/
theorem c5_duration :
    duration_col (some 40) (some 10) = some 4 ∧
      (∀ c : Option ℚ, duration_col c (some 0) = none) ∧
      (∀ c p : ℚ, p ≠ 0 → duration_col (some c) (some p) = some (c / p)) ∧
      (∀ t : ℚ, merged_duration t 0 = none) ∧
      (∀ c p : ℚ, 0 < p → merged_duration c p = some (c / p)) := by
  refine ⟨?_, ?_, ?_, ?_, ?_⟩
  · norm_num [duration_col]
  · intro c; cases c <;> simp [duration_col]
  · intro c p hp; simp [duration_col, hp]
  · intro t; simp [merged_duration]
  · intro c p hp; simp [merged_duration, hp]

theorem c5_witness :
    ((10:ℚ) ≠ 0 ∧ duration_col (some 40) (some 10) = some (40 / 10)) ∧
      (0 < (10:ℚ) ∧ merged_duration 40 10 = some (40 / 10)) :=
  ⟨⟨by decide, c5_duration.2.2.1 40 10 (by decide)⟩,
   ⟨by decide, c5_duration.2.2.2.2 40 10 (by decide)⟩⟩

/-- C6: status classification is by case-insensitive substring test: both
indicators present gives `In Planung`; only the operating indicator gives
`In Betrieb`; only the planned indicator gives `In Planung`; neither leaves
the raw text unchanged. -/
theorem c6_status (t : String) :
    (containsSub (lowerL t) ("betrieb".toList) = true →
      containsSub (lowerL t) ("planung".toList) = true →
        standardize_status t = "In Planung") ∧
    (containsSub (lowerL t) ("betrieb".toList) = true →
      containsSub (lowerL t) ("planung".toList) = false →
        standardize_status t = "In Betrieb") ∧
    (containsSub (lowerL t) ("betrieb".toList) = false →
      containsSub (lowerL t) ("planung".toList) = true →
        standardize_status t = "In Planung") ∧
    (containsSub (lowerL t) ("betrieb".toList) = false →
      containsSub (lowerL t) ("planung".toList) = false →
        standardize_status t = t) := by
  refine ⟨?_, ?_, ?_, ?_⟩ <;> intro hb hp <;>
    simp only [standardize_status] <;> rw [hb, hp] <;> simp

theorem c6_witness :
    (containsSub (lowerL "In Betrieb") ("betrieb".toList) = true ∧
      containsSub (lowerL "In Betrieb") ("planung".toList) = false ∧
      standardize_status "In Betrieb" = "In Betrieb") ∧
    (containsSub (lowerL "vorläufig in Planung") ("betrieb".toList) = false ∧
      containsSub (lowerL "vorläufig in Planung") ("planung".toList) = true ∧
      standardize_status "vorläufig in Planung" = "In Planung") ∧
    (containsSub (lowerL "In Betrieb (Planung beendet)") ("betrieb".toList) = true ∧
      containsSub (lowerL "In Betrieb (Planung beendet)") ("planung".toList) = true ∧
      standardize_status "In Betrieb (Planung beendet)" = "In Planung") :=
  ⟨⟨by decide, by decide, (c6_status "In Betrieb").2.1 (by decide) (by decide)⟩,
   ⟨by decide, by decide, (c6_status "vorläufig in Planung").2.2.1 (by decide) (by decide)⟩,
   ⟨by decide, by decide, (c6_status "In Betrieb (Planung beendet)").1 (by decide) (by decide)⟩⟩

lemma filter_comp {α : Type} (p q : α → Bool) (l : List α) :
    (l.filter p).filter q = l.filter (fun a => p a && q a) := by
  induction l with
  | nil => rfl
  | cons a l ih => cases hp : p a <;> cases hq : q a <;> simp [List.filter_cons, hp, hq, ih]

/-- A row fixture: a canonical record with the given name, power, capacity,
duration and year, all other cells NaN. -/
def plainRow (name : String) (pw cap dur : Option ℚ) (yr : Option ℤ) : Row :=
  { Anlagename := name
    MaStR_Nr := none
    Betreiber := none
    Betreiber_Original := none
    Netzbetreiber := none
    Netzbetreiber_Original := none
    Bundesland := none
    Leistung_MW := pw
    Kapazitaet_MWh := cap
    Dauer_Stunden := dur
    Jahr := yr
    Status := "In Betrieb"
    Anlagename_Original_Parts := none }

/-- A row whose only NaN among the filtered fields is its power. -/
def nullPowerRow : Row := plainRow "Speicher A" none (some 4) (some 4) (some 2020)

/-- C2 (refutation): the claim says a row with a null value in a checked
field is not removed by that rule; but `nullPowerRow`, which passes the
capacity, duration and year rules and is null only in power, is removed by
the power rule (`NaN >= min` is `False` in pandas), leaving an empty table. -/
theorem c2_counterexample :
    nullPowerRow.Leistung_MW = none ∧
      keep_capacity OUTLIER_RULES nullPowerRow = true ∧
      keep_duration OUTLIER_RULES nullPowerRow = true ∧
      keep_year OUTLIER_RULES nullPowerRow = true ∧
      apply_outlier_filters OUTLIER_RULES [nullPowerRow] = [] := by
  refine ⟨rfl, by decide, by decide, by decide, by decide⟩

/-- C2 (amended): the filters compose into one conjunctive row predicate,
and the null exemption holds for the year rule only — a null year passes
the year rule, while a null power, capacity or duration fails the
corresponding rule and removes the row. -/
theorem c2_amended (rules : OutlierRules) (df : List Row) (r : Row) :
    apply_outlier_filters rules df
        = df.filter (fun x =>
            keep_power rules x && (keep_capacity rules x
              && (keep_duration rules x && keep_year rules x))) ∧
      (r.Jahr = none → keep_year rules r = true) ∧
      (r.Leistung_MW = none → keep_power rules r = false) ∧
      (r.Kapazitaet_MWh = none → keep_capacity rules r = false) ∧
      (r.Dauer_Stunden = none → keep_duration rules r = false) := by
  refine ⟨?_, ?_, ?_, ?_, ?_⟩
  · unfold apply_outlier_filters
    rw [filter_comp, filter_comp, filter_comp]
  · intro h; simp [keep_year, h]
  · intro h; simp [keep_power, h]
  · intro h; simp [keep_capacity, h]
  · intro h; simp [keep_duration, h]

/-- A row whose power, capacity, duration and year are all NaN. -/
def nullFieldsRow : Row := plainRow "Speicher B" none none none none

theorem c2_witness :
    (nullFieldsRow.Jahr = none ∧ keep_year OUTLIER_RULES nullFieldsRow = true) ∧
      (nullFieldsRow.Leistung_MW = none ∧ keep_power OUTLIER_RULES nullFieldsRow = false) ∧
      (nullFieldsRow.Kapazitaet_MWh = none ∧ keep_capacity OUTLIER_RULES nullFieldsRow = false) ∧
      (nullFieldsRow.Dauer_Stunden = none ∧ keep_duration OUTLIER_RULES nullFieldsRow = false) :=
  ⟨⟨by decide, (c2_amended OUTLIER_RULES [] nullFieldsRow).2.1 (by decide)⟩,
   ⟨by decide, (c2_amended OUTLIER_RULES [] nullFieldsRow).2.2.1 (by decide)⟩,
   ⟨by decide, (c2_amended OUTLIER_RULES [] nullFieldsRow).2.2.2.1 (by decide)⟩,
   ⟨by decide, (c2_amended OUTLIER_RULES [] nullFieldsRow).2.2.2.2 (by decide)⟩⟩

/-- C7 (refutation): the claim says the cleaner removes exactly the
trailing `(SNB<digits>)` suffix (with its surrounding whitespace); but on a
name with no such suffix the final `.strip()` still removes the leading
whitespace, so the string is not returned unchanged. -/
theorem c7_counterexample :
    snbStripL (" Westnetz GmbH".toList) = " Westnetz GmbH".toList ∧
      clean_netzbetreiber_name (some " Westnetz GmbH") ≠ some " Westnetz GmbH" ∧
      clean_netzbetreiber_name (some " Westnetz GmbH") = some "Westnetz GmbH" := by
  refine ⟨by decide, by decide, by decide⟩

/-- C7 (amended): the cleaner removes a trailing `(SNB<digits>)` suffix
anchored at end-of-string and then strips whitespace from both ends of the
whole name (also when no suffix is present); null maps to null through both
the cleaning stage and the alias-resolution stage. -/
theorem c7_amended :
    clean_netzbetreiber_name (some "Westnetz GmbH (SNB00000123)") = some "Westnetz GmbH" ∧
      clean_netzbetreiber_name none = none ∧
      nb_resolve_opt (clean_netzbetreiber_name none) = none ∧
      (∀ s : String, snbStripL s.toList = s.toList →
        clean_netzbetreiber_name (some s) = some (String.mk (pyStripL s.toList))) := by
  refine ⟨by decide, rfl, rfl, ?_⟩
  intro s h
  have h2 : snbStripL s.data = s.data := h
  simp [clean_netzbetreiber_name, h2]

theorem c7_witness :
    snbStripL ("Westnetz GmbH".toList) = "Westnetz GmbH".toList ∧
      clean_netzbetreiber_name (some "Westnetz GmbH")
        = some (String.mk (pyStripL ("Westnetz GmbH".toList))) :=
  ⟨by decide, c7_amended.2.2.2 "Westnetz GmbH" (by decide)⟩

/-- C8: re-running the aggregator on a table in which no project name
appears in any part list (an already-merged table) is a no-op. -/
theorem c8_aggregator_noop (rows : List Row)
    (h : ∀ r ∈ rows, isPart r.Anlagename = false) :
    consolidate_multi_part_projects rows = rows := by
  have hany : rows.any (fun r => isPart r.Anlagename) = false := by
    rw [List.any_eq_false]
    intro r hr
    simp [h r hr]
  simp [consolidate_multi_part_projects, hany]

/-- An already-consolidated record: its name is a merged-group label, which
is itself in no part list. -/
def mergedLikeRow : Row :=
  plainRow "Speicher Beilrode I" (some 10) (some 20) (some 2) (some 2023)

theorem c8_witness :
    (∀ r ∈ [mergedLikeRow], isPart r.Anlagename = false) ∧
      consolidate_multi_part_projects [mergedLikeRow] = [mergedLikeRow] :=
  ⟨by decide, c8_aggregator_noop [mergedLikeRow] (by decide)⟩

/-- C3: the aggregator's output row count equals the pass-through count plus
the number of distinct consolidated group names with at least one part
present in the input. -/
theorem c3_row_count (rows : List Row) :
    (consolidate_multi_part_projects rows).length
      = (rows.filter (fun r => !(isPart r.Anlagename))).length
          + (groupKeys rows).length := by
  unfold consolidate_multi_part_projects
  cases hany : rows.any (fun r => isPart r.Anlagename) with
  | false =>
    have hall : ∀ r ∈ rows, isPart r.Anlagename = false := by
      rw [List.any_eq_false] at hany
      intro r hr
      simpa using hany r hr
    have h1 : rows.filter (fun r => !(isPart r.Anlagename)) = rows :=
      List.filter_eq_self.mpr (fun a ha => by simp [hall a ha])
    have h2 : matchedRows rows = [] := by
      unfold matchedRows
      exact List.filter_eq_nil_iff.mpr (fun a ha => by simp [hall a ha])
    have h3 : groupKeys rows = [] := by
      unfold groupKeys
      rw [h2]
      rfl
    simp [hany, h1, h3]
  | true =>
    simp [hany, passThroughRows, consolidatedRows]

lemma conservation_proj (rows : List Row) (proj : Row → Option ℚ)
    (hproj : ∀ k g t, proj (mergeGroup k g t) = some (optSum (g.map proj))) :
    optSum ((consolidatedRows rows).map proj)
      = optSum ((matchedRows rows).map proj) := by
  have hkeys_nodup : (groupKeys rows).Nodup := nodup_sortStrings (List.nodup_dedup _)
  have hcover : ∀ r ∈ matchedRows rows, rowKey r ∈ groupKeys rows := by
    intro r hr
    unfold groupKeys
    rw [mem_sortStrings, List.mem_dedup]
    exact List.mem_map.mpr ⟨r, hr, rfl⟩
  have hmap : (consolidatedRows rows).map proj
      = (groupKeys rows).map (fun k => some (optSum ((groupOf rows k).map proj))) := by
    unfold consolidatedRows
    rw [List.map_map]
    apply List.map_congr_left
    intro k _
    exact hproj k (groupOf rows k) ((groupOf rows k).headD emptyTemplate)
  rw [hmap, optSum_map_some]
  have hgrp : (groupKeys rows).map (fun k => optSum ((groupOf rows k).map proj))
      = (groupKeys rows).map (fun k =>
          (((matchedRows rows).filter (fun x => rowKey x == k)).map
            (fun x => (proj x).getD 0)).sum) := by
    apply List.map_congr_left
    intro k _
    unfold groupOf
    rw [optSum_getD, List.map_map]
    rfl
  rw [hgrp,
    sum_partition rowKey (fun x => (proj x).getD 0) (groupKeys rows) (matchedRows rows)
      hkeys_nodup hcover,
    optSum_getD, List.map_map]
  rfl

/-- C1 (conservation): for every canonical table, the pandas sums of
`power_MW` and of `capacity_MWh` over the to-merge input rows equal the
corresponding sums over the merged rows the aggregator synthesizes (exact
equality in the rational model, hence within any floating-point
tolerance). -/
theorem c1_conservation (rows : List Row) :
    optSum ((matchedRows rows).map (fun r => r.Leistung_MW))
        = optSum ((consolidatedRows rows).map (fun r => r.Leistung_MW)) ∧
      optSum ((matchedRows rows).map (fun r => r.Kapazitaet_MWh))
        = optSum ((consolidatedRows rows).map (fun r => r.Kapazitaet_MWh)) :=
  ⟨(conservation_proj rows (fun r => r.Leistung_MW)
      (fun k g t => by simp [mergeGroup])).symm,
   (conservation_proj rows (fun r => r.Kapazitaet_MWh)
      (fun k g t => by simp [mergeGroup])).symm⟩

/-- C10: the provenance column exists iff some input row's name matches a
part list.  With no match the table is returned unchanged — in particular
with the provenance cells still absent; with a match every output row
carries a provenance value: pass-through rows their own name, merged rows
the sorted `'; '`-joined list of their original part names. -/
theorem c10_provenance (rows : List Row)
    (h : ∀ r ∈ rows, r.Anlagename_Original_Parts = none) :
    (rows.any (fun r => isPart r.Anlagename) = false →
        consolidate_multi_part_projects rows = rows ∧
          ∀ r ∈ consolidate_multi_part_projects rows,
            r.Anlagename_Original_Parts = none) ∧
      (rows.any (fun r => isPart r.Anlagename) = true →
        (∀ r ∈ consolidate_multi_part_projects rows,
            (r.Anlagename_Original_Parts).isSome = true) ∧
          (∀ r ∈ passThroughRows rows,
            r.Anlagename_Original_Parts = some r.Anlagename) ∧
          (∀ r ∈ consolidatedRows rows,
            r.Anlagename_Original_Parts
              = some (String.intercalate "; "
                  (sortStrings ((groupOf rows r.Anlagename).map
                    (fun x => x.Anlagename)))))) := by
  constructor
  · intro hany
    have heq : consolidate_multi_part_projects rows = rows := by
      simp [consolidate_multi_part_projects, hany]
    exact ⟨heq, by rw [heq]; exact h⟩
  · intro hany
    have hpass : ∀ r ∈ passThroughRows rows,
        r.Anlagename_Original_Parts = some r.Anlagename := by
      intro r hr
      unfold passThroughRows at hr
      rcases List.mem_map.mp hr with ⟨x, _, rfl⟩
      rfl
    have hcons : ∀ r ∈ consolidatedRows rows,
        r.Anlagename_Original_Parts
          = some (String.intercalate "; "
              (sortStrings ((groupOf rows r.Anlagename).map
                (fun x => x.Anlagename)))) := by
      intro r hr
      unfold consolidatedRows at hr
      rcases List.mem_map.mp hr with ⟨k, _, rfl⟩
      rfl
    refine ⟨?_, hpass, hcons⟩
    intro r hr
    have hsplit : consolidate_multi_part_projects rows
        = passThroughRows rows ++ consolidatedRows rows := by
      simp [consolidate_multi_part_projects, hany]
    rw [hsplit] at hr
    rcases List.mem_append.mp hr with h1 | h1
    · rw [hpass r h1]; rfl
    · rw [hcons r h1]; rfl

/-- A record whose name is a registered part of a multi-part project. -/
def partRow : Row :=
  plainRow "Speicher Martinsheim - P23-148 - Teil 1" (some 5) (some 10) (some 2) (some 2023)

/-- A record whose name matches no part list. -/
def passRow : Row := plainRow "Speicher Solo" (some 2) (some 4) (some 2) (some 2021)

theorem c10_witness :
    (∀ r ∈ [passRow, partRow], r.Anlagename_Original_Parts = none) ∧
      ([passRow, partRow].any (fun r => isPart r.Anlagename) = true) ∧
      ((∀ r ∈ consolidate_multi_part_projects [passRow, partRow],
          (r.Anlagename_Original_Parts).isSome = true) ∧
        (∀ r ∈ passThroughRows [passRow, partRow],
          r.Anlagename_Original_Parts = some r.Anlagename) ∧
        (∀ r ∈ consolidatedRows [passRow, partRow],
          r.Anlagename_Original_Parts
            = some (String.intercalate "; "
                (sortStrings ((groupOf [passRow, partRow] r.Anlagename).map
                  (fun x => x.Anlagename)))))) :=
  ⟨by decide, by decide, (c10_provenance [passRow, partRow] (by decide)).2 (by decide)⟩

/-- C9: normalization never drops a row, so zero usable rows survive
normalization exactly when the input itself has no rows; precisely then
`get_data` emits its explicit empty-result diagnostic (the `Bool` of the
model) together with the empty table, and any nonempty batch is processed
to completion with no signal — no per-row condition aborts it. -/
theorem c9_empty_signal :
    (∀ fs : Option (List RawRow),
        ((normalize_all (fs.getD [])).length = 0 ↔ (get_data fs).2 = true)) ∧
      (∀ raws : List RawRow, (normalize_all raws).length = raws.length) ∧
      (∀ raws : List RawRow, raws ≠ [] →
        get_data (some raws) = (load_and_process_data raws, false)) := by
  refine ⟨?_, ?_, ?_⟩
  · intro fs
    cases fs with
    | none => simp [get_data, normalize_all]
    | some raws =>
      cases raws with
      | nil => simp [get_data, normalize_all]
      | cons a l => simp [get_data, normalize_all]
  · intro raws
    simp [normalize_all]
  · intro raws hne
    cases raws with
    | nil => exact absurd rfl hne
    | cons a l => simp [get_data]

/-- A raw record that normalizes fine but is later outlier-filtered
(0.5 MW is below the 1 MW minimum). -/
def rawSmall : RawRow :=
  { Anlagename := "Kleinspeicher"
    MaStR_Nr := none
    Betreiber := some "Testfirma GmbH"
    Netzbetreiber := some "Westnetz GmbH (SNB00000123)"
    Bundesland := some "Bayern"
    Nettonennleistung_kW := some 500
    Speicherkapazitaet_kWh := some 1000
    Betriebsstatus := some "In Betrieb"
    Inbetriebnahmedatum := some 2022
    Geplantes_Inbetriebnahmedatum := none }

theorem c9_witness :
    [rawSmall] ≠ [] ∧
      get_data (some [rawSmall]) = (load_and_process_data [rawSmall], false) :=
  ⟨by decide, c9_empty_signal.2.2 [rawSmall] (by decide)⟩

end BatteryPipeline
